import Mathlib

/-!
Verification of the persistence and session-lifecycle layer of
`src/marvin/engine/database.py` (module `marvin.engine.database`).

The module manages a SQLite database (through SQLAlchemy) holding three
tables — `threads`, `messages`, `llm_calls` — plus engine caching, session
scopes and schema bootstrap.  Here the observable state of that stack is
embedded shallowly:

* the database is a record of the three entity tables (existence flag plus
  row list each) together with any other tables present in the file;
* `uuid.uuid4()` is modelled as a fresh-name generator (a counter producing
  pairwise-distinct non-empty strings); the only property of `uuid4` the
  code relies on is that generated ids are fresh;
* `datetime.now(UTC)` (`utc_now`) is an explicit `now : Nat` parameter;
* SQLAlchemy sessions are a record of the committed database plus the
  pending (added but unflushed) objects and an open/closed connection flag;
* the SQLite backend's foreign-key enforcement is a boolean of the
  connection.  The engines the registry hands out are SQLite engines — the
  lazy branch would build `create_engine("sqlite:///…")` /
  `create_async_engine("sqlite+aiosqlite:///…")` with only
  `check_same_thread=False` in `connect_args`, and injected ones arrive via
  `set_engine` / `set_async_engine` — and no `PRAGMA foreign_keys=ON` is
  ever issued anywhere in the codebase (no connection event hook exists),
  so enforcement retains SQLite's default: OFF;
* the lazy construction branch itself reads `settings.database_path`, an
  attribute the `Settings` model of `settings.py` does not define (its
  field is `database_url`), so that branch raises `AttributeError`;
  attribute access on the settings object is embedded as an `Except`
  value.
-/

/-- A JSON document, as stored by the `JSON` columns (`message`, `prompt`,
`cost`).  SQLAlchemy's JSON type serializes with `json.dumps` on write and
`json.loads` on read, which is the identity round-trip on JSON values; the
column is therefore modelled as holding the JSON value itself. -/
inductive Json where
  | null : Json
  | bool (b : Bool) : Json
  | num (n : Int) : Json
  | str (s : String) : Json
  | arr (items : List Json) : Json
  | obj (fields : List (String × Json)) : Json

/-- A row of the `threads` table (class `DBThread`, lines 74–93):
`id` (String primary key), `parent_thread_id` (nullable FK to `threads.id`),
`created_at` (default `utc_now`, applied at insert). -/
structure ThreadRow where
  id : String
  parent_thread_id : Option String
  created_at : Nat
deriving DecidableEq

/-- A row of the `messages` table (class `DBMessage`, lines 96–122):
`id` (UUID primary key, default `uuid.uuid4`), `thread_id` (FK to
`threads.id`), `llm_call_id` (nullable FK to `llm_calls.id`), `message`
(JSON column), `timestamp` (default `utc_now`). -/
structure MessageRow where
  id : String
  thread_id : String
  llm_call_id : Option String
  message : Json
  timestamp : Nat

/-- A row of the `llm_calls` table (class `DBLLMCall`, lines 125–135). -/
structure LLMCallRow where
  id : String
  thread_id : String
  model : String
  prompt : Json
  cost : Json
  timestamp : Nat

/-- The state of the SQLite database file: for each of the three tables of
`Base.metadata`, whether it exists and its rows; `otherTables` are the names
of any further tables present in the file (visible to
`inspect(engine).get_table_names()` but unknown to the metadata). -/
structure DB where
  threadsTable : Bool
  messagesTable : Bool
  llmCallsTable : Bool
  threads : List ThreadRow
  messages : List MessageRow
  llm_calls : List LLMCallRow
  otherTables : List String

/-- `inspect(get_engine()).get_table_names()`: every table present in the
database file. -/
def DB.tableNames (db : DB) : List String :=
  (if db.threadsTable then ["threads"] else [])
    ++ (if db.messagesTable then ["messages"] else [])
    ++ (if db.llmCallsTable then ["llm_calls"] else [])
    ++ db.otherTables

/-- `Base.metadata.create_all(engine)`: creates each of the three metadata
tables that does not yet exist, empty; already-existing tables are skipped
(SQLAlchemy's default `checkfirst=True`), their rows untouched; tables not
in the metadata are untouched. -/
def DB.create_all (db : DB) : DB :=
  { db with
    threadsTable := true
    messagesTable := true
    llmCallsTable := true
    threads := if db.threadsTable then db.threads else []
    messages := if db.messagesTable then db.messages else []
    llm_calls := if db.llmCallsTable then db.llm_calls else [] }

/-- `Base.metadata.drop_all(engine)`: drops the metadata's tables (and their
rows); tables not in the metadata are untouched. -/
def DB.drop_all (db : DB) : DB :=
  { db with
    threadsTable := false
    messagesTable := false
    llmCallsTable := false
    threads := []
    messages := []
    llm_calls := [] }

/-- `ensure_tables_exist()` (lines 138–142): inspects the engine's schema
and calls `Base.metadata.create_all` only when the table-name list is
empty. -/
def ensure_tables_exist (db : DB) : DB :=
  if db.tableNames.isEmpty then db.create_all else db

/-- `create_db_and_tables(force)` (lines 165–174): when `force` is true
first `Base.metadata.drop_all`, then unconditionally
`Base.metadata.create_all`. -/
def create_db_and_tables (db : DB) (force : Bool) : DB :=
  DB.create_all (if force then db.drop_all else db)

/-- A database with the three tables created and one populated thread row;
used as a concrete witness input. -/
def dbPopulated : DB :=
  { threadsTable := true
    messagesTable := true
    llmCallsTable := true
    threads := [{ id := "t1", parent_thread_id := none, created_at := 1 }]
    messages := []
    llm_calls := []
    otherTables := [] }

/-- A completely empty database file (no tables at all). -/
def dbEmpty : DB :=
  { threadsTable := false
    messagesTable := false
    llmCallsTable := false
    threads := []
    messages := []
    llm_calls := []
    otherTables := [] }

/-- An engine handle.  `create_engine` / `create_async_engine` return a new
handle each time they run; `handleId` records that identity, `url` the
connection string the handle was built from. -/
structure Engine where
  url : String
  handleId : Nat
deriving DecidableEq

/-- The module-level mutable state of the engine registry: the `"default"`
slot of `_engine_cache` (line 30) and of `_async_engine_cache` (line 31),
plus a counter supplying the identity of the next handle a
`create_*_engine` call would construct. -/
structure EngineState where
  engineCache : Option Engine
  asyncEngineCache : Option Engine
  nextHandleId : Nat
deriving DecidableEq

/-- A Python `AttributeError`: raised on access to an attribute the object
does not define. -/
inductive AttrError where
  | database_path_missing : AttrError
deriving DecidableEq

/-- The `Settings` model of `settings.py`: its storage-location field is
`database_url` (lines 43–46, "Path to the database file"); the model
defines no `database_path` field, property, alias or `__getattr__`, and its
`model_config` sets only env handling and `extra="ignore"`. -/
structure Settings where
  database_url : String

/-- The module-level `settings` instance (`marvin.settings.settings`). -/
def settings : Settings := { database_url := "marvin.db" }

/-- The attribute access `settings.database_path` performed while
evaluating the URL f-strings of `get_engine` (database.py line 38) and
`get_async_engine` (line 49): the `Settings` model defines no such
attribute, so the access raises `AttributeError`. -/
def settingsDatabasePath : Except AttrError String :=
  .error .database_path_missing

/-- `create_engine(url, ...)` / `create_async_engine(url, ...)`: the
SQLAlchemy constructors, returning a fresh handle for a URL they are given.
On the cache-miss path of the registry they are never reached: their URL
argument raises first. -/
def create_engine (url : String) (st : EngineState) : Engine × EngineState :=
  ({ url := url, handleId := st.nextHandleId },
   { st with nextHandleId := st.nextHandleId + 1 })

/-- `get_engine()` (lines 34–42): if `"default"` is absent from
`_engine_cache`, evaluate `f"sqlite:///{settings.database_path}"` — which
raises `AttributeError`, leaving the cache untouched, before
`create_engine` can run — otherwise return the cached entry. -/
def get_engine (st : EngineState) : Except AttrError (Engine × EngineState) :=
  match st.engineCache with
  | some e => .ok (e, st)
  | none =>
      match settingsDatabasePath with
      | .error e => .error e
      | .ok p =>
          let (e, st') := create_engine ("sqlite:///" ++ p) st
          .ok (e, { st' with engineCache := some e })

/-- `get_async_engine()` (lines 45–53): same shape on
`_async_engine_cache`, with the `sqlite+aiosqlite` URL f-string — whose
`settings.database_path` access raises identically. -/
def get_async_engine (st : EngineState) :
    Except AttrError (Engine × EngineState) :=
  match st.asyncEngineCache with
  | some e => .ok (e, st)
  | none =>
      match settingsDatabasePath with
      | .error e => .error e
      | .ok p =>
          let (e, st') := create_engine ("sqlite+aiosqlite:///" ++ p) st
          .ok (e, { st' with asyncEngineCache := some e })

/-- The registry state at process start: both cache slots empty. -/
def engineStateInitial : EngineState :=
  { engineCache := none, asyncEngineCache := none, nextHandleId := 0 }

/-- An externally constructed engine handle, as a test would inject through
`set_engine` / `set_async_engine`. -/
def engineTest : Engine := { url := "sqlite:///test.db", handleId := 42 }

/-- `set_engine(engine)` (lines 56–58): overwrite the `"default"` slot. -/
def set_engine (engine : Engine) (st : EngineState) : EngineState :=
  { st with engineCache := some engine }

/-- `set_async_engine(engine)` (lines 61–63). -/
def set_async_engine (engine : Engine) (st : EngineState) : EngineState :=
  { st with asyncEngineCache := some engine }

/-- The state of the `uuid.uuid4()` source, modelled as a fresh-name
generator: successive draws yield pairwise-distinct, non-empty strings.
Freshness (no collision) is the property of `uuid4` the code relies on. -/
structure Gen where
  next : Nat
deriving DecidableEq

/-- The id produced by the `n`-th draw from the generator: a non-empty
string determined injectively by `n` (standing in for `str(uuid.uuid4())`). -/
def uuidString (n : Nat) : String :=
  String.mk (List.replicate (n + 1) 'u')

/-- Draw one fresh id: `str(uuid.uuid4())`. -/
def uuid4 (g : Gen) : String × Gen :=
  (uuidString g.next, { next := g.next + 1 })

/-- The errors the storage stack can raise on these paths: a missing table,
a primary-key conflict, a foreign-key violation (only when the connection
enforces foreign keys), a domain-schema validation failure, and a failed
refresh of a just-inserted row. -/
inductive DbError where
  | noSuchTable : DbError
  | pkViolation : DbError
  | fkViolation : DbError
  | validationFailure : DbError
  | refreshMiss : DbError
deriving DecidableEq

/-- Whether the SQLite connections enforce foreign-key constraints.  The
engines are built (lines 34–53) with no `PRAGMA foreign_keys=ON` and no
connection event hook, so SQLite's default applies: enforcement OFF. -/
def sqliteForeignKeysEnabled : Bool := false

/-- The ids present in the `threads` table. -/
def DB.threadIds (db : DB) : List String :=
  db.threads.map (fun r => r.id)

/-- The ids present in the `messages` table. -/
def DB.messageIds (db : DB) : List String :=
  db.messages.map (fun r => r.id)

/-- The SQLite INSERT of one `threads` row (as issued by a session flush):
fails if the table is missing or the primary key is taken; the declared
foreign key `parent_thread_id → threads.id` is checked only when the
connection enforces foreign keys. -/
def insertThread (fk : Bool) (db : DB) (row : ThreadRow) : Except DbError DB :=
  if !db.threadsTable then .error .noSuchTable
  else if db.threads.any (fun r => r.id == row.id) then .error .pkViolation
  else if fk && (match row.parent_thread_id with
                 | some p => !(db.threads.any (fun r => r.id == p))
                 | none => false) then .error .fkViolation
  else .ok { db with threads := db.threads ++ [row] }

/-- The SQLite INSERT of one `messages` row: table and primary-key checks,
and the two declared foreign keys (`thread_id → threads.id`,
`llm_call_id → llm_calls.id`) only when the connection enforces them. -/
def insertMessage (fk : Bool) (db : DB) (row : MessageRow) : Except DbError DB :=
  if !db.messagesTable then .error .noSuchTable
  else if db.messages.any (fun r => r.id == row.id) then .error .pkViolation
  else if fk && !(db.threads.any (fun r => r.id == row.thread_id)) then
    .error .fkViolation
  else if fk && (match row.llm_call_id with
                 | some c => !(db.llm_calls.any (fun r => r.id == c))
                 | none => false) then .error .fkViolation
  else .ok { db with messages := db.messages ++ [row] }

/-- A `DBThread` object added to a session but not yet flushed: its
`created_at` default is applied only at insert time. -/
structure PendingThread where
  id : String
  parent_thread_id : Option String
deriving DecidableEq

/-- A SQLAlchemy `Session` (or `AsyncSession`): the committed database
visible through the engine, the pending added objects, and whether the
underlying connection resources are still held. -/
structure Sess where
  db : DB
  pendingThreads : List PendingThread
  connOpen : Bool

/-- `Session(get_engine())` / `AsyncSession(get_async_engine())`: a fresh
session over the durable state, with nothing pending. -/
def sessionOpen (db : DB) : Sess :=
  { db := db, pendingThreads := [], connOpen := true }

/-- `session.close()`: release the connection and discard (expunge/roll
back) whatever was pending but uncommitted; the durable state is not
touched. -/
def closeSession (s : Sess) : Sess :=
  { s with pendingThreads := [], connOpen := false }

/-- Flush the pending thread objects into the database in order, applying
the `created_at = utc_now()` column default at insert time; the first
failing insert aborts the flush. -/
def commitPending (fk : Bool) (db : DB) (l : List PendingThread) (now : Nat) :
    Except DbError DB :=
  match l with
  | [] => .ok db
  | t :: ts =>
      match insertThread fk db
          { id := t.id, parent_thread_id := t.parent_thread_id, created_at := now } with
      | .error e => .error e
      | .ok db2 => commitPending fk db2 ts now

/-- One interaction of a caller's body with its session: `session.add`,
`session.commit()` (at a given clock instant), or `session.rollback()`. -/
inductive SessOp where
  | add (t : PendingThread) : SessOp
  | commit (now : Nat) : SessOp
  | rollback : SessOp

/-- The effect of one session operation.  `commit` flushes the pending
objects into the durable state; a failed flush leaves the durable state
unchanged and the transaction rolled back. -/
def applySessOp (s : Sess) (op : SessOp) : Sess :=
  match op with
  | .add t => { s with pendingThreads := s.pendingThreads ++ [t] }
  | .commit now =>
      match commitPending sqliteForeignKeysEnabled s.db s.pendingThreads now with
      | .ok db2 => { s with db := db2, pendingThreads := [] }
      | .error _ => { s with pendingThreads := [] }
  | .rollback => { s with pendingThreads := [] }

/-- Run a body's session operations in order. -/
def runOps (s : Sess) (ops : List SessOp) : Sess :=
  ops.foldl applySessOp s

/-- How the caller's body leaves the scope: normal return, an exception
raised inside the body, or (for the non-blocking variant) cancellation of
the unit of work. -/
inductive ExitKind where
  | normal : ExitKind
  | raised : ExitKind
  | cancelled : ExitKind
deriving DecidableEq

/-- A caller's body inside a session scope: the session operations it gets
to perform and the way it exits. -/
structure ScopeBody where
  ops : List SessOp
  exit : ExitKind

/-- `get_session()` (lines 145–152): open a `Session` over the engine,
yield it to the body, and in the `finally` block call `session.close()` —
on every exit path, whatever the body did. -/
def get_session_run (db : DB) (b : ScopeBody) : ExitKind × Sess :=
  let s1 := runOps (sessionOpen db) b.ops
  (b.exit, closeSession s1)

/-- `get_async_session()` (lines 155–162): the non-blocking variant; same
structure, `await session.close()` in the `finally` block. -/
def get_async_session_run (db : DB) (b : ScopeBody) : ExitKind × Sess :=
  let s1 := runOps (sessionOpen db) b.ops
  (b.exit, closeSession s1)

/-- Stated from the spec's words, for comparison with `get_session_run`
(spec §2: "the scope commits and releases the underlying connection on
exit, regardless of success or failure"): after every scope, the durable
state would equal the state obtained by committing the body's still-pending
unit of work at exit. -/
def scope_commits_on_exit_spec : Prop :=
  ∀ (db : DB) (b : ScopeBody),
    ((get_session_run db b).2).db =
      (applySessOp (runOps (sessionOpen db) b.ops) (.commit 0)).db

/-- `DBThread.create(session, parent_thread_id)` (lines 83–93): build a
`DBThread` with a fresh `str(uuid.uuid4())` id and the given parent, add it
to the session, `commit()` (flushing every pending object, applying the
`created_at` default), then `refresh` the object from the database and
return it. -/
def DBThread.create (s : Sess) (g : Gen) (now : Nat)
    (parent_thread_id : Option String) :
    Except DbError (ThreadRow × Sess × Gen) :=
  let (id, g2) := uuid4 g
  let s1 := applySessOp s (.add { id := id, parent_thread_id := parent_thread_id })
  match commitPending sqliteForeignKeysEnabled s1.db s1.pendingThreads now with
  | .error e => .error e
  | .ok db2 =>
      match db2.threads.find? (fun r => r.id == id) with
      | none => .error .refreshMiss
      | some row => .ok (row, { s1 with db := db2, pendingThreads := [] }, g2)

/-- Modelled from the spec: the domain `Message` schema.  The `Message`
type comes from `marvin/engine/llm.py`, which is not under `src/`; spec §3
describes the stored document as "an opaque, schema-validated JSON document
representing one serialized conversational message (role, content,
structured fields)".  A document conforms when it is a JSON object carrying
a string `role` field and a `content` field. -/
def conformsToMessageSchema : Json → Bool
  | .obj fields =>
      (match fields.lookup "role" with
       | some (.str _) => true
       | _ => false)
        && (fields.lookup "content").isSome
  | _ => false

/-- Modelled from the spec: `message_adapter.dump_python(message,
mode="json")` (line 27 / line 120) — the pydantic `TypeAdapter(Message)`
validating the domain object against the schema of `Message` (from the
missing `marvin/engine/llm.py`) and serializing it to its JSON form; per
spec §4.4/§7 it fails on a non-conforming object, before any storage
interaction. -/
def message_adapter_dump_python (m : Json) : Option Json :=
  if conformsToMessageSchema m then some m else none

/-- A `DBMessage` entity as returned by `from_message`: unsaved, so the
`id` and `timestamp` column defaults are not applied yet. -/
structure NewMessage where
  thread_id : String
  llm_call_id : Option String
  message : Json

/-- `DBMessage.from_message(thread_id, message, llm_call_id)` (lines
111–122): serialize the domain message through the adapter and return an
unsaved entity.  It takes no session and performs no insert. -/
def DBMessage.from_message (thread_id : String) (message : Json)
    (llm_call_id : Option String) : Option NewMessage :=
  (message_adapter_dump_python message).map fun j =>
    { thread_id := thread_id, llm_call_id := llm_call_id, message := j }

/-- The caller-side usage around `from_message` described by the spec
(§8, scenario 3): build the entity, insert it and commit, applying the
`id = uuid4()` and `timestamp = utc_now()` column defaults at flush time.
A validation failure surfaces before the database is consulted. -/
def insertDomainMessage (db : DB) (g : Gen) (now : Nat) (thread_id : String)
    (m : Json) (llm_call_id : Option String) :
    Except DbError (MessageRow × DB × Gen) :=
  match DBMessage.from_message thread_id m llm_call_id with
  | none => .error .validationFailure
  | some nm =>
      let (mid, g2) := uuid4 g
      let row : MessageRow :=
        { id := mid, thread_id := nm.thread_id, llm_call_id := nm.llm_call_id,
          message := nm.message, timestamp := now }
      match insertMessage sqliteForeignKeysEnabled db row with
      | .error e => .error e
      | .ok db2 => .ok (row, db2, g2)

/-- Reload a `messages` row by primary key (SELECT … WHERE id = …). -/
def reloadMessage (db : DB) (id : String) : Option MessageRow :=
  db.messages.find? (fun r => r.id == id)

/-- A database with the three (empty) tables created: the state
`create_db_and_tables()` leaves on a fresh file. -/
def dbTables : DB :=
  { threadsTable := true
    messagesTable := true
    llmCallsTable := true
    threads := []
    messages := []
    llm_calls := []
    otherTables := [] }

/-- A fresh session over `dbTables`. -/
def sessTables : Sess := sessionOpen dbTables

/-- The row `DBThread.create` persists when asked for parent `"missing"`
on `dbTables` (no such thread exists) with the generator at `0` and the
clock at `7`. -/
def danglingRow : ThreadRow :=
  { id := uuidString 0, parent_thread_id := some "missing", created_at := 7 }

/-- A body that adds one thread object to its session and returns normally
without ever committing. -/
def bodyAddOnly : ScopeBody :=
  { ops := [.add { id := "t1", parent_thread_id := none }], exit := .normal }

/-- A conforming domain message document: scenario 3 of spec §8,
`{"role": "user", "content": "hi"}`. -/
def msgHi : Json :=
  .obj [("role", .str "user"), ("content", .str "hi")]

/-- A non-conforming domain object: a bare JSON string is not a message
object (no `role`/`content` fields). -/
def badMsg : Json := .str "hi"

/-- C6: whenever at least one table already exists in the database file,
`ensure_tables_exist()` is the identity — it creates nothing, drops nothing
and leaves every row list unchanged; only on a database with no tables at
all does it run `create_all`, after which all three entity tables exist. -/
theorem ensure_tables_exist_noop_iff_tables (db : DB) :
    (db.tableNames ≠ [] → ensure_tables_exist db = db) ∧
    (db.tableNames = [] →
      ensure_tables_exist db = db.create_all ∧
      (ensure_tables_exist db).threadsTable = true ∧
      (ensure_tables_exist db).messagesTable = true ∧
      (ensure_tables_exist db).llmCallsTable = true) := by
  constructor
  · intro h
    simp [ensure_tables_exist, List.isEmpty_iff, h]
  · intro h
    simp [ensure_tables_exist, List.isEmpty_iff, h, DB.create_all]

/-- Witness for C6 at concrete databases: on `dbPopulated` (which has
tables) the call is a no-op; on `dbEmpty` it creates the three tables. -/
theorem ensure_tables_exist_noop_iff_tables_witness :
    ensure_tables_exist dbPopulated = dbPopulated ∧
    (ensure_tables_exist dbEmpty).threadsTable = true := by
  refine ⟨(ensure_tables_exist_noop_iff_tables dbPopulated).1 ?_,
    ((ensure_tables_exist_noop_iff_tables dbEmpty).2 ?_).2.1⟩
  · decide
  · decide

/-- C7: `create_db_and_tables(force=True)` on any database state first drops
all tables and recreates them, leaving all three entity tables present and
containing zero rows. -/
theorem create_db_and_tables_force_empties (db : DB) :
    (create_db_and_tables db true).threadsTable = true ∧
    (create_db_and_tables db true).messagesTable = true ∧
    (create_db_and_tables db true).llmCallsTable = true ∧
    (create_db_and_tables db true).threads = [] ∧
    (create_db_and_tables db true).messages = [] ∧
    (create_db_and_tables db true).llm_calls = [] ∧
    create_db_and_tables db true = DB.create_all db.drop_all := by
  simp [create_db_and_tables, DB.drop_all, DB.create_all]

/-- C10: `create_db_and_tables()` with `force=False` is non-destructive:
every already-existing table keeps exactly its rows (creation skips it),
tables outside the metadata are untouched, and afterwards all three entity
tables exist (missing ones were created, empty). -/
theorem create_db_and_tables_no_force_preserves (db : DB) :
    (create_db_and_tables db false).threadsTable = true ∧
    (create_db_and_tables db false).messagesTable = true ∧
    (create_db_and_tables db false).llmCallsTable = true ∧
    (create_db_and_tables db false).otherTables = db.otherTables ∧
    (db.threadsTable = true →
      (create_db_and_tables db false).threads = db.threads) ∧
    (db.messagesTable = true →
      (create_db_and_tables db false).messages = db.messages) ∧
    (db.llmCallsTable = true →
      (create_db_and_tables db false).llm_calls = db.llm_calls) ∧
    (db.threadsTable = false →
      (create_db_and_tables db false).threads = []) := by
  refine ⟨rfl, rfl, rfl, rfl, ?_, ?_, ?_, ?_⟩ <;>
    intro h <;> simp [create_db_and_tables, DB.create_all, h]

/-- Witness for C10: on the populated database, the existing thread row
survives an unforced `create_db_and_tables()`. -/
theorem create_db_and_tables_no_force_preserves_witness :
    (create_db_and_tables dbPopulated false).threads = dbPopulated.threads :=
  (create_db_and_tables_no_force_preserves dbPopulated).2.2.2.2.1 rfl

/-- C5: on the code as shipped, the lazy half of the engine-registry
contract fails.  With an empty cache slot — the process's initial state —
`get_engine()` raises `AttributeError` while evaluating its URL f-string
(`settings.database_path` is an attribute the `Settings` model does not
define; settings.py defines `database_url`) and caches nothing, so the
second call raises identically instead of either call returning a lazily
constructed cached handle; `get_async_engine()` fails the same way on its
own slot.  Only the cache-hit half of the claimed contract holds: after
`set_engine(h)` the next `get_engine()` returns exactly `h` with the
registry unchanged — hence the call after that returns the identical
handle — and likewise for `set_async_engine` / `get_async_engine`. -/
theorem get_engine_attribute_error :
    get_engine engineStateInitial = .error .database_path_missing ∧
    get_async_engine engineStateInitial = .error .database_path_missing ∧
    get_engine (set_engine engineTest engineStateInitial) =
      .ok (engineTest, set_engine engineTest engineStateInitial) ∧
    get_async_engine (set_async_engine engineTest engineStateInitial) =
      .ok (engineTest, set_async_engine engineTest engineStateInitial) :=
  ⟨rfl, rfl, rfl, rfl⟩

/-- A membership-to-Bool bridge: a list contains no element whose projected
id equals `x` exactly when `x` is outside the projected ids. -/
theorem any_beq_eq_false {α : Type} (f : α → String) (l : List α) (x : String)
    (h : x ∉ l.map f) : l.any (fun r => f r == x) = false := by
  rw [List.any_eq_false]
  intro r hr hbeq
  exact h (List.mem_map.mpr ⟨r, hr, by simpa using hbeq⟩)

/-- Looking up a just-appended element by its projected id finds it, as
long as no earlier element shares that id. -/
theorem find?_append_of_fresh {α : Type} (f : α → String) (l : List α) (a : α)
    (h : f a ∉ l.map f) :
    (l ++ [a]).find? (fun r => f r == f a) = some a := by
  induction l with
  | nil => simp
  | cons hd tl ih =>
      have hne : (f hd == f a) = false := by
        simp only [List.map_cons, List.mem_cons] at h
        simpa using fun he => h (Or.inl he.symm)
      simp only [List.cons_append, List.find?, hne]
      exact ih fun hm => h (by simp [hm])

/-- Distinct draws from the uuid generator are distinct strings. -/
theorem uuidString_ne_of_ne (m n : Nat) (h : m ≠ n) :
    uuidString m ≠ uuidString n := by
  intro he
  have hlen := congrArg (fun s => s.data.length) he
  simp only [uuidString] at hlen
  simp at hlen
  exact h hlen

/-- Every draw from the uuid generator is a non-empty string. -/
theorem uuidString_ne_empty (n : Nat) : uuidString n ≠ "" := by
  intro he
  have hlen := congrArg (fun s => s.data.length) he
  simp [uuidString] at hlen

/-- C4: on every exit path of a session scope — normal return, an exception
in the body, or cancellation of the non-blocking variant — the session
acquired by `get_session` / `get_async_session` is closed when the scope
ends, whatever session operations (including commits or none) the body
performed; and the scope swallows nothing: the body's exit is the scope's
exit. -/
theorem session_scope_releases_every_exit (db : DB) (b : ScopeBody) :
    ((get_session_run db b).2).connOpen = false ∧
    ((get_async_session_run db b).2).connOpen = false ∧
    (get_session_run db b).1 = b.exit ∧
    (get_async_session_run db b).1 = b.exit :=
  ⟨rfl, rfl, rfl, rfl⟩

/-- C3 counterexample: the spec's "the scope commits … on exit" is false of
the code.  A body that adds a thread object and exits without committing
leaves the durable state without the row: the `finally` block of
`get_session` (lines 149–152) only calls `session.close()`, which discards
the pending unit of work instead of committing it. -/
theorem scope_commits_on_exit_refuted : ¬ scope_commits_on_exit_spec := by
  intro h
  have h2 := congrArg (fun d => d.threads) (h dbTables bodyAddOnly)
  simp [get_session_run, runOps, sessionOpen, closeSession, applySessOp,
    commitPending, insertThread, sqliteForeignKeysEnabled, bodyAddOnly,
    dbTables] at h2

/-- C3 (amended): on scope exit — body returned or raised — both session
scopes release the underlying connection unconditionally, but do not
commit: the durable state after the scope is exactly the state the body's
own commits produced, with any still-pending work discarded. -/
theorem session_scope_releases_and_never_commits (db : DB) (b : ScopeBody) :
    ((get_session_run db b).2).connOpen = false ∧
    ((get_session_run db b).2).db = (runOps (sessionOpen db) b.ops).db ∧
    ((get_session_run db b).2).pendingThreads = [] ∧
    ((get_async_session_run db b).2).connOpen = false ∧
    ((get_async_session_run db b).2).db = (runOps (sessionOpen db) b.ops).db ∧
    ((get_async_session_run db b).2).pendingThreads = [] :=
  ⟨rfl, rfl, rfl, rfl, rfl, rfl⟩

/-- C1: on the code as shipped, `DBThread.create` with a `parent_thread_id`
absent from the `threads` table does NOT fail — the write is accepted and a
row with the dangling parent is persisted, because the engine never enables
SQLite foreign-key enforcement.  Had the connection enforced the declared
foreign key (third conjunct, `fk = true`), the same insert would have been
rejected with a referential-integrity error, which is what the claim (and
the declared `ForeignKey("threads.id")` of line 78) describe. -/
theorem thread_create_dangling_parent_persists :
    DBThread.create sessTables { next := 0 } 7 (some "missing") =
      .ok (danglingRow,
        { db := { dbTables with threads := [danglingRow] },
          pendingThreads := [], connOpen := true },
        { next := 1 }) ∧
    insertThread true dbTables danglingRow = .error .fkViolation := by
  constructor
  · rfl
  · rfl

/-- Evaluation of `DBThread.create` on a quiescent session (nothing already
pending) over a database whose `threads` table exists, when the generated
id is fresh: the insert succeeds (the connection does not enforce foreign
keys) and the refreshed row comes back. -/
theorem create_eval (s : Sess) (g : Gen) (now : Nat) (parent : Option String)
    (hp : s.pendingThreads = [])
    (ht : s.db.threadsTable = true)
    (hfresh : uuidString g.next ∉ s.db.threadIds) :
    DBThread.create s g now parent =
      .ok ({ id := uuidString g.next, parent_thread_id := parent,
             created_at := now },
        { db := { s.db with threads := s.db.threads ++
            [{ id := uuidString g.next, parent_thread_id := parent,
               created_at := now }] },
          pendingThreads := [], connOpen := s.connOpen },
        { next := g.next + 1 }) := by
  have hany := any_beq_eq_false (fun r => r.id) s.db.threads (uuidString g.next)
    (by simpa [DB.threadIds] using hfresh)
  have hfind := find?_append_of_fresh (fun r => r.id) s.db.threads
    { id := uuidString g.next, parent_thread_id := parent, created_at := now }
    (by simpa [DB.threadIds] using hfresh)
  simp [DBThread.create, uuid4, applySessOp, hp, commitPending, insertThread,
    sqliteForeignKeysEnabled, ht, hany, hfind]

/-- C8: on a quiescent session over a database with a `threads` table, with
the uuid source yielding fresh ids, `DBThread.create` with no parent
returns a row with `parent_thread_id = none`, a non-empty id new to the
table, and `created_at` populated with the insert-time clock; a second call
returns a different id. -/
theorem thread_create_no_parent_contract (s : Sess) (g : Gen) (now now2 : Nat)
    (hp : s.pendingThreads = [])
    (ht : s.db.threadsTable = true)
    (h1 : uuidString g.next ∉ s.db.threadIds)
    (h2 : uuidString (g.next + 1) ∉ s.db.threadIds) :
    ∃ r1 s1 g1 r2 s2 g2,
      DBThread.create s g now none = .ok (r1, s1, g1) ∧
      r1.parent_thread_id = none ∧
      r1.id ≠ "" ∧
      r1.created_at = now ∧
      r1.id ∉ s.db.threadIds ∧
      DBThread.create s1 g1 now2 none = .ok (r2, s2, g2) ∧
      r2.id ≠ r1.id := by
  refine ⟨_, _, _, _, _, _, create_eval s g now none hp ht h1, rfl,
    uuidString_ne_empty _, rfl, h1, create_eval _ _ now2 none rfl ht ?_, ?_⟩
  · simp only [DB.threadIds, List.map_append, List.mem_append, List.map_cons,
      List.map_nil, List.mem_cons, List.not_mem_nil, or_false]
    rintro (hin | heq)
    · exact h2 (by simpa [DB.threadIds] using hin)
    · exact uuidString_ne_of_ne (g.next + 1) g.next (Nat.succ_ne_self g.next) heq
  · exact uuidString_ne_of_ne (g.next + 1) g.next (Nat.succ_ne_self g.next)

/-- Witness for C8 on a fresh session over the empty three-table database,
the generator at `0` and the clock at `5` then `6`. -/
theorem thread_create_no_parent_contract_witness :
    ∃ r1 s1 g1 r2 s2 g2,
      DBThread.create sessTables { next := 0 } 5 none = .ok (r1, s1, g1) ∧
      r1.parent_thread_id = none ∧
      r1.id ≠ "" ∧
      r1.created_at = 5 ∧
      r1.id ∉ sessTables.db.threadIds ∧
      DBThread.create s1 g1 6 none = .ok (r2, s2, g2) ∧
      r2.id ≠ r1.id :=
  thread_create_no_parent_contract sessTables { next := 0 } 5 6 rfl rfl
    (by simp [sessTables, sessionOpen, dbTables, DB.threadIds])
    (by simp [sessTables, sessionOpen, dbTables, DB.threadIds])

/-- C2: for a domain object that does not conform to the message schema,
`DBMessage.from_message` yields no entity — and the enclosing
insert-and-commit path surfaces the validation failure before the database
is consulted: for every database state the same validation error comes
back and nothing is inserted. -/
theorem from_message_rejects_nonconforming (db : DB) (g : Gen) (now : Nat)
    (tid : String) (m : Json) (llc : Option String)
    (h : conformsToMessageSchema m = false) :
    DBMessage.from_message tid m llc = none ∧
    insertDomainMessage db g now tid m llc = .error .validationFailure := by
  have h1 : DBMessage.from_message tid m llc = none := by
    simp [DBMessage.from_message, message_adapter_dump_python, h]
  exact ⟨h1, by simp [insertDomainMessage, h1]⟩

/-- Witness for C2: a bare JSON string is rejected, on the populated
database as much as on any other. -/
theorem from_message_rejects_nonconforming_witness :
    conformsToMessageSchema badMsg = false ∧
    DBMessage.from_message "t1" badMsg none = none ∧
    insertDomainMessage dbPopulated { next := 0 } 3 "t1" badMsg none =
      .error .validationFailure :=
  ⟨rfl, from_message_rejects_nonconforming dbPopulated { next := 0 } 3 "t1"
    badMsg none rfl⟩

/-- C9: for a conforming domain message and an existing thread id,
`from_message` followed by insert, commit and reload-by-id yields a
`message` column equal to the serialized form of the domain message (the
JSON round-trip through the column is the identity on JSON documents). -/
theorem message_insert_roundtrip (db : DB) (g : Gen) (now : Nat)
    (tid : String) (m : Json) (llc : Option String)
    (hv : conformsToMessageSchema m = true)
    (ht : db.messagesTable = true)
    (_hth : tid ∈ db.threadIds)
    (hfresh : uuidString g.next ∉ db.messageIds) :
    ∃ row db2,
      insertDomainMessage db g now tid m llc =
        .ok (row, db2, { next := g.next + 1 }) ∧
      row.message = m ∧
      row.thread_id = tid ∧
      row.llm_call_id = llc ∧
      row.timestamp = now ∧
      db2.messages = db.messages ++ [row] ∧
      reloadMessage db2 row.id = some row := by
  have hfm : DBMessage.from_message tid m llc =
      some { thread_id := tid, llm_call_id := llc, message := m } := by
    simp [DBMessage.from_message, message_adapter_dump_python, hv]
  have hany := any_beq_eq_false (fun r => r.id) db.messages (uuidString g.next)
    (by simpa [DB.messageIds] using hfresh)
  refine ⟨{ id := uuidString g.next, thread_id := tid, llm_call_id := llc,
            message := m, timestamp := now },
    { db with messages := db.messages ++
        [{ id := uuidString g.next, thread_id := tid, llm_call_id := llc,
           message := m, timestamp := now }] },
    ?_, rfl, rfl, rfl, rfl, rfl, ?_⟩
  · simp [insertDomainMessage, hfm, uuid4, insertMessage,
      sqliteForeignKeysEnabled, ht, hany]
  · simpa [reloadMessage] using
      find?_append_of_fresh (fun r => r.id) db.messages
        { id := uuidString g.next, thread_id := tid, llm_call_id := llc,
          message := m, timestamp := now }
        (by simpa [DB.messageIds] using hfresh)

/-- Witness for C9: scenario 3 of spec §8 — insert
`{"role": "user", "content": "hi"}` on thread `"t1"` of the populated
database and reload it. -/
theorem message_insert_roundtrip_witness :
    conformsToMessageSchema msgHi = true ∧
    "t1" ∈ dbPopulated.threadIds ∧
    (∃ row db2,
      insertDomainMessage dbPopulated { next := 0 } 3 "t1" msgHi none =
        .ok (row, db2, { next := 1 }) ∧
      row.message = msgHi ∧
      row.thread_id = "t1" ∧
      row.llm_call_id = none ∧
      row.timestamp = 3 ∧
      db2.messages = dbPopulated.messages ++ [row] ∧
      reloadMessage db2 row.id = some row) :=
  ⟨rfl, by simp [dbPopulated, DB.threadIds],
    message_insert_roundtrip dbPopulated { next := 0 } 3 "t1" msgHi none rfl
      rfl (by simp [dbPopulated, DB.threadIds])
      (by simp [dbPopulated, DB.messageIds])⟩
